import Mathlib

/-!
Verification of the `gsc_api` client (`src/gsc_api/api.py`).

The file gives a shallow embedding of the pure/algorithmic content of the
`GoogleSeachConsoleAPI` class and proves the frozen claims about it:

* `_format_domain` (lines 39-52): the `re.sub` based site-identifier
  normalizer, embedded as a left-to-right scan over the character list.
* `get_search_analytics` (lines 125-155): the single-page query builder.
  Its date handling (`datetime.strptime(end_date, '%Y-%m-%d')`,
  `end_date - timedelta(days=duration)`, `strftime('%Y-%m-%d')`) is embedded
  with a proleptic-Gregorian calendar: `toOrd` / `fromOrd` mirror
  `date.toordinal` / `date.fromordinal`, which is exactly how CPython
  implements `date - timedelta`.  The wall clock (`datetime.today()`) is an
  explicit `today` parameter.  The remote call is represented by the request
  body that would be handed to the service.
* `convert_to_df` (lines 107-123): the pandas reshaping idiom, embedded on
  the fragment of the records it touches (the `keys` tuple of each record;
  metric fields pass through `from_records` unchanged and play no role in the
  reshaping or in its error behavior).
* `get_search_analytics_all` (lines 157-182): the pagination loop, embedded
  as a step function on an explicit loop state plus a fuel-indexed runner
  (the loop can genuinely diverge, so it is not a total function).  The
  remote service is an abstract function from request bodies to an optional
  rows list; `none` models a response in which the `rows` field is missing,
  which makes the Python subscript `response['rows']` raise.

The embedding is stated for `row_limit > 0`; at `row_limit = 0` the Python
loop condition raises `ZeroDivisionError`, a case outside every claim, and
the general theorems about the loop carry a `0 < row_limit` hypothesis.
Digits are modelled as ASCII digits and durations as non-negative day counts.
-/

deriving instance DecidableEq for Except

/-! ## Calendar model (`datetime` fragment used by the source) -/

/-- Proleptic Gregorian calendar date, the fragment of `datetime` the source
uses (the time-of-day component is always midnight and never observed). -/
structure Date where
  year : Nat
  month : Nat
  day : Nat
deriving DecidableEq, Repr

/-- Gregorian leap-year rule. -/
def isLeap (y : Nat) : Bool :=
  y % 4 == 0 && (y % 100 != 0 || y % 400 == 0)

/-- Number of days in month `m` of year `y`. -/
def daysInMonth (y m : Nat) : Nat :=
  if m = 2 then (if isLeap y then 29 else 28)
  else if m = 4 ∨ m = 6 ∨ m = 9 ∨ m = 11 then 30
  else 31

/-- Days in year `y` that precede the first day of month `m`. -/
def daysBeforeMonth (y m : Nat) : Nat :=
  (List.range (m - 1)).foldl (fun a i => a + daysInMonth y (i + 1)) 0

/-- Proleptic Gregorian ordinal of a date, with `toOrd ⟨1, 1, 1⟩ = 1`;
mirrors Python `date.toordinal`. -/
def toOrd (d : Date) : Nat :=
  365 * (d.year - 1) + (d.year - 1) / 4 - (d.year - 1) / 100 + (d.year - 1) / 400
    + daysBeforeMonth d.year d.month + d.day

/-- Inverse of `toOrd` on ordinals `≥ 1`; mirrors Python `date.fromordinal`
(standard era-of-400-years civil-from-days computation). -/
def fromOrd (n : Nat) : Date :=
  let g := n + 305
  let era := g / 146097
  let doe := g % 146097
  let yoe := (doe - doe / 1460 + doe / 36524 - doe / 146096) / 365
  let y := yoe + era * 400
  let doy := doe - (365 * yoe + yoe / 4 - yoe / 100)
  let mp := (5 * doy + 2) / 153
  let d := doy - (153 * mp + 2) / 5 + 1
  let m := if mp < 10 then mp + 3 else mp - 9
  if m ≤ 2 then ⟨y + 1, m, d⟩ else ⟨y, m, d⟩

/-- Day subtraction `d - timedelta(days = n)`: CPython computes it as
`date.fromordinal(d.toordinal() - n)` and raises `OverflowError` when the
result would leave the supported range (ordinals below 1), which the `none`
branch models. -/
def subDaysO (d : Date) (n : Nat) : Option Date :=
  if n + 1 ≤ toOrd d then some (fromOrd (toOrd d - n)) else none

/-! ## Date parsing and serialization (`strptime` / `strftime`) -/

/-- Split a character list at every dash, mirroring how the `strptime`
pattern for `'%Y-%m-%d'` carves the input at the literal separators. -/
def splitDash : List Char → List (List Char)
  | [] => [[]]
  | c :: cs =>
    if c = '-' then [] :: splitDash cs
    else
      match splitDash cs with
      | t :: ts => (c :: t) :: ts
      | [] => [[c]]

/-- Numeric value of a nonempty all-digit character list, `none` otherwise. -/
def digitsVal (l : List Char) : Option Nat :=
  if l ≠ [] ∧ l.all Char.isDigit then
    some (l.foldl (fun a c => 10 * a + (c.toNat - 48)) 0)
  else none

/-- Embedding of `datetime.strptime(s, '%Y-%m-%d')`: the year field is
exactly four digits, month and day are one or two digits, nothing may remain
after the match, and the resulting triple must be an in-range calendar date
(month 1-12, day within the month, year at least 1); `none` models the
`ValueError` the call raises otherwise. -/
def parseDate (s : String) : Option Date :=
  match splitDash s.data with
  | [ys, ms, ds] =>
    match digitsVal ys, digitsVal ms, digitsVal ds with
    | some y, some m, some d =>
      if ys.length = 4 ∧ ms.length ≤ 2 ∧ ds.length ≤ 2
          ∧ 1 ≤ y ∧ 1 ≤ m ∧ m ≤ 12 ∧ 1 ≤ d ∧ d ≤ daysInMonth y m then
        some ⟨y, m, d⟩
      else none
    | _, _, _ => none
  | _ => none

/-- Decimal digits of `n`, zero-padded on the left to width `w`. -/
def padNat (w n : Nat) : List Char :=
  let ds := Nat.toDigits 10 n
  List.replicate (w - ds.length) '0' ++ ds

/-- Embedding of `strftime('%Y-%m-%d')`: zero-padded `YYYY-MM-DD`. -/
def fmtDate (d : Date) : String :=
  String.mk (padNat 4 d.year ++ '-' :: padNat 2 d.month ++ '-' :: padNat 2 d.day)

/-! ## Single-page query builder (`get_search_analytics`, lines 125-155) -/

/-- Request body assembled by `get_search_analytics` (lines 146-153). -/
structure Body where
  startDate : String
  endDate : String
  dimensions : List String
  rowLimit : Nat
  dataState : String
  startRow : Nat
deriving DecidableEq, Repr

/-- Errors raised while building the request body. -/
inductive ApiError where
  | invalidDateFormat
  | dateOverflow
deriving DecidableEq, Repr

/-- The string FINAL used for the dataState field. -/
def finalState : String := "FINAL"

/-- Embedding of lines 140-153 of `get_search_analytics`: resolve the end
date (`if not end_date` is true for both `None` and the empty string, so both
fall back to `datetime.today()`, passed here as `today`; otherwise
`strptime`), subtract `timedelta(days=duration)`, and serialize the window
into the request body. -/
def buildBody (today : Date) (dimensions : List String) (start_row row_limit : Nat)
    (end_date : Option String) (duration : Nat) : Except ApiError Body :=
  let edR : Except ApiError Date :=
    match end_date with
    | none => Except.ok today
    | some s =>
      if s = "" then Except.ok today
      else
        match parseDate s with
        | some d => Except.ok d
        | none => Except.error ApiError.invalidDateFormat
  match edR with
  | Except.error e => Except.error e
  | Except.ok ed =>
    match subDaysO ed duration with
    | none => Except.error ApiError.dateOverflow
    | some sd =>
      Except.ok
        { startDate := fmtDate sd
          endDate := fmtDate ed
          dimensions := dimensions
          rowLimit := row_limit
          dataState := finalState
          startRow := start_row }

/-- Requests that one `get_search_analytics` call sends to the remote
service: exactly one when the body was built, none when building failed
before line 154 could execute. -/
def gsaRequests (today : Date) (dimensions : List String) (start_row row_limit : Nat)
    (end_date : Option String) (duration : Nat) : List Body :=
  match buildBody today dimensions start_row row_limit end_date duration with
  | Except.ok b => [b]
  | Except.error _ => []

/-- Embedding of `get_search_analytics` as seen by its caller: build the
body, then hand it to the remote service `svc` and return the response
verbatim; a body-building failure propagates and no request is made. -/
def get_search_analytics {ρ : Type} (svc : Body → ρ) (today : Date)
    (dimensions : List String) (start_row row_limit : Nat)
    (end_date : Option String) (duration : Nat) : Except ApiError ρ :=
  Except.map svc (buildBody today dimensions start_row row_limit end_date duration)

/-! ## Site-identifier normalizer (`_format_domain`, lines 39-52) -/

/-- Character form of the regex alternative `https://`. -/
def httpsPat : List Char := ['h', 't', 't', 'p', 's', ':', '/', '/']

/-- Character form of the regex alternative `http://`. -/
def httpPat : List Char := ['h', 't', 't', 'p', ':', '/', '/']

/-- Character form of the replacement text `sc-domain:`. -/
def scDomain : List Char := ['s', 'c', '-', 'd', 'o', 'm', 'a', 'i', 'n', ':']

/-- Embedding of `re.sub(r'(http(s)?:\/\/)', r'sc-domain:', domain)`: scan
left to right; at each position try the greedy alternative `https://` first,
then `http://`; on a match emit the replacement and resume after the matched
text (matches do not overlap); otherwise copy one character. -/
def reSubHttp : List Char → List Char
  | [] => []
  | c :: cs =>
    if httpsPat.isPrefixOf (c :: cs) then
      scDomain ++ reSubHttp (List.drop 8 (c :: cs))
    else if httpPat.isPrefixOf (c :: cs) then
      scDomain ++ reSubHttp (List.drop 7 (c :: cs))
    else c :: reSubHttp cs
termination_by l => l.length
decreasing_by
  all_goals simp [List.length_drop]
  all_goals omega

/-- Embedding of `_format_domain` (lines 39-52). -/
def _format_domain (domain : String) : String :=
  String.mk (reSubHttp domain.data)

/-- Whether `http://` or `https://` occurs (as a substring) anywhere in the
character list; used to state what the normalizer leaves unchanged. -/
def hasOcc : List Char → Bool
  | [] => false
  | c :: cs => httpsPat.isPrefixOf (c :: cs) || httpPat.isPrefixOf (c :: cs) || hasOcc cs

/-! ## Tabular reshaper (`convert_to_df`, lines 107-123) -/

/-- Errors the pandas idiom can raise: `keyError` models `df['keys']` on the
empty frame produced by `from_records([])`; `valueError` models the
assignment error `Columns must be same length as key`. -/
inductive PdError where
  | keyError
  | valueError
deriving DecidableEq, Repr

/-- The literal column name keys. -/
def keysStr : String := "keys"

/-- Width of the frame produced by `df['keys'].apply(pd.Series)`: each keys
tuple becomes one row, and the columns are the union of the tuple positions,
so the width is the longest tuple's length. -/
def maxKeyLen (data : List (List String)) : Nat :=
  data.foldr (fun r a => max r.length a) 0

/-- Embedding of `convert_to_df` (lines 107-123) on the fragment it touches:
each record is represented by its `keys` tuple.  `from_records([])` yields a
frame with no columns, so `df['keys']` raises `KeyError`; the multi-column
assignment `df[dimensions] = df['keys'].apply(pd.Series)` raises
`ValueError` unless `len(dimensions)` equals the width of the expanded
frame, and otherwise assigns the expanded columns positionally, rows shorter
than the width being padded with missing values (`none`); finally
`df.drop(columns=['keys'])` removes the combined-keys column.  The result is
the list of produced dimension columns in order, each column paired with its
per-record values. -/
def convert_to_df (data : List (List String)) (dimensions : List String) :
    Except PdError (List (String × List (Option String))) :=
  if data = [] then Except.error PdError.keyError
  else if dimensions.length ≠ maxKeyLen data then Except.error PdError.valueError
  else
    Except.ok
      (((dimensions.enum).map
          (fun p => (p.snd, data.map (fun r => r.get? p.fst)))).filter
        (fun p => p.fst != keysStr))

/-! ## Pagination loop (`get_search_analytics_all`, lines 157-182) -/

/-- The dimensions fixed by line 169. -/
def qpDims : List String := ["query", "page"]

/-- Loop state of `get_search_analytics_all`: the cursor `start_row`, the
accumulator `data`, and (as a ghost trace for the claims) the list of request
bodies issued so far. -/
structure GscState (α : Type) where
  sr : Nat
  data : List α
  calls : List Body
deriving DecidableEq, Repr

/-- Initial loop state (lines 170-171). -/
def initState {α : Type} : GscState α := ⟨0, [], []⟩

/-- Errors that abort the export loop: a response without a `rows` field
(the subscript `response['rows']` raises `KeyError`), or a failure while
building the request body. -/
inductive LoopErr where
  | missingRows
  | buildErr (e : ApiError)
deriving DecidableEq, Repr

/-- Outcome of one iteration of the export loop. -/
inductive StepRes (α : Type) where
  | next (s : GscState α)
  | done (data : List α) (calls : List Body)
  | err (e : LoopErr)
deriving DecidableEq

/-- The `while` guard of line 173: `(start_row % row_limit == 0) or
(start_row == 0)`. -/
def loopCond (sr rl : Nat) : Bool :=
  (sr % rl == 0) || (sr == 0)

/-- The `break` guard of line 179: `max_export and start_row > max_export`.
Python truthiness makes `max_export = 0` falsy, exactly like `None`. -/
def maxReached (maxExport : Option Nat) (sr : Nat) : Bool :=
  match maxExport with
  | none => false
  | some m => !(m == 0) && decide (sr > m)

/-- One iteration of the `while` loop (lines 173-181): test the guard; issue
`get_search_analytics(dimensions, start_row, row_limit)` (so with the default
`end_date=None`, `duration=30`); on a response whose `rows` field is missing
fail; otherwise advance `start_row` by the number of rows received, extend
the accumulator, and stop if the `max_export` break fires.  The remote
service `svc` maps a request body to the `rows` field of its response,
`none` when that field is absent. -/
def allStep {α : Type} (today : Date) (svc : Body → Option (List α))
    (maxExport : Option Nat) (rl : Nat) (s : GscState α) : StepRes α :=
  if loopCond s.sr rl then
    match buildBody today qpDims s.sr rl none 30 with
    | Except.error e => StepRes.err (LoopErr.buildErr e)
    | Except.ok b =>
      match svc b with
      | none => StepRes.err LoopErr.missingRows
      | some rows =>
        if maxReached maxExport (s.sr + rows.length) then
          StepRes.done (s.data ++ rows) (s.calls ++ [b])
        else StepRes.next ⟨s.sr + rows.length, s.data ++ rows, s.calls ++ [b]⟩
  else StepRes.done s.data s.calls

/-- Fuel-indexed runner for the loop: `none` means the loop has not
terminated within `fuel` iterations (the loop can genuinely diverge). -/
def runAll {α : Type} (today : Date) (svc : Body → Option (List α))
    (maxExport : Option Nat) (rl : Nat) :
    Nat → GscState α → Option (Except LoopErr (List α × List Body))
  | 0, _ => none
  | fuel + 1, s =>
    match allStep today svc maxExport rl s with
    | StepRes.next s1 => runAll today svc maxExport rl fuel s1
    | StepRes.done d c => some (Except.ok (d, c))
    | StepRes.err e => some (Except.error e)

/-- Embedding of `get_search_analytics_all(max_export, row_limit)` (lines
157-182), run from the initial state with the given fuel; on normal
termination it returns the accumulator (line 182) together with the ghost
trace of issued requests. -/
def get_search_analytics_all {α : Type} (today : Date) (svc : Body → Option (List α))
    (maxExport : Option Nat) (rl fuel : Nat) :
    Option (Except LoopErr (List α × List Body)) :=
  runAll today svc maxExport rl fuel initState

/-- The state reached after exactly `n` completed loop iterations, `none` if
the loop stopped or failed strictly before that. -/
def statesAt {α : Type} (today : Date) (svc : Body → Option (List α))
    (maxExport : Option Nat) (rl : Nat) : Nat → GscState α → Option (GscState α)
  | 0, s => some s
  | n + 1, s =>
    match allStep today svc maxExport rl s with
    | StepRes.next s1 => statesAt today svc maxExport rl n s1
    | _ => none

/-- Concatenation, in order, of the rows lists the service returned for the
given request trace. -/
def joinPages {α : Type} (svc : Body → Option (List α)) (calls : List Body) : List α :=
  (calls.map (fun b => (svc b).getD [])).flatten

/-! ## Concrete scenarios used by the claims -/

/-- Fixed wall-clock date used in the concrete scenarios (the spec's fixed
today, 2024-06-15). -/
def today0 : Date := ⟨2024, 6, 15⟩

/-- Request body the loop sends from `today0` with page size `rl` and cursor
`sr` (window 2024-05-16 to 2024-06-15, the default 30-day duration). -/
def pageBody (rl sr : Nat) : Body :=
  { startDate := "2024-05-16"
    endDate := "2024-06-15"
    dimensions := qpDims
    rowLimit := rl
    dataState := finalState
    startRow := sr }

/-- Service returning pages of sizes 2, 2, 1 in succession (keyed by the
cursor of the request, which is 0, then 2, then 4). -/
def svc221 : Body → Option (List Nat) := fun b =>
  if b.startRow == 0 then some [10, 11]
  else if b.startRow == 2 then some [12, 13]
  else some [14]

/-- Service always returning a full page of two rows. -/
def svcFull : Body → Option (List Nat) := fun _ => some [7, 7]

/-- Service always returning a response with `rows` present but empty. -/
def svcEmpty : Body → Option (List Nat) := fun _ => some []

/-- Service whose responses always lack the `rows` field. -/
def svcNoRows : Body → Option (List Nat) := fun _ => none

/-! ## Helper lemmas about the loop semantics -/

/-- Shape of a continuing iteration: the guard held, a body was built, the
service returned a rows list, the break did not fire, and the state advanced
by exactly that page. -/
theorem allStep_next_shape {α : Type} {today : Date} {svc : Body → Option (List α)}
    {maxE : Option Nat} {rl : Nat} {s s1 : GscState α}
    (h : allStep today svc maxE rl s = StepRes.next s1) :
    ∃ b rows, loopCond s.sr rl = true ∧
      buildBody today qpDims s.sr rl none 30 = Except.ok b ∧
      svc b = some rows ∧
      maxReached maxE (s.sr + rows.length) = false ∧
      s1 = ⟨s.sr + rows.length, s.data ++ rows, s.calls ++ [b]⟩ := by
  unfold allStep at h
  split at h
  · rename_i hcond
    split at h
    · simp at h
    · rename_i b hb
      split at h
      · simp at h
      · rename_i rows hrows
        split at h
        · simp at h
        · rename_i hmax
          cases h
          exact ⟨b, rows, hcond, hb, hrows, by simpa using hmax, rfl⟩
  · simp at h

/-- Shape of a terminating iteration: either the guard failed and the state
was returned unchanged, or the page was appended and the break fired. -/
theorem allStep_done_shape {α : Type} {today : Date} {svc : Body → Option (List α)}
    {maxE : Option Nat} {rl : Nat} {s : GscState α} {D : List α} {C : List Body}
    (h : allStep today svc maxE rl s = StepRes.done D C) :
    (loopCond s.sr rl = false ∧ D = s.data ∧ C = s.calls) ∨
    (∃ b rows, loopCond s.sr rl = true ∧
      buildBody today qpDims s.sr rl none 30 = Except.ok b ∧
      svc b = some rows ∧
      maxReached maxE (s.sr + rows.length) = true ∧
      D = s.data ++ rows ∧ C = s.calls ++ [b]) := by
  unfold allStep at h
  split at h
  · rename_i hcond
    split at h
    · simp at h
    · rename_i b hb
      split at h
      · simp at h
      · rename_i rows hrows
        split at h
        · rename_i hmax
          cases h
          exact Or.inr ⟨b, rows, hcond, hb, hrows, hmax, rfl, rfl⟩
        · simp at h
  · rename_i hcond
    cases h
    exact Or.inl ⟨by simpa using hcond, rfl, rfl⟩

/-- Unfolding lemma: one more iteration of `runAll` after a continuing step. -/
theorem runAll_succ_next {α : Type} {today : Date} {svc : Body → Option (List α)}
    {maxE : Option Nat} {rl : Nat} {s s1 : GscState α}
    (h : allStep today svc maxE rl s = StepRes.next s1) (fuel : Nat) :
    runAll today svc maxE rl (fuel + 1) s = runAll today svc maxE rl fuel s1 := by
  conv_lhs => rw [runAll]
  rw [h]

/-- Unfolding lemma: `runAll` reports the result of a terminating step. -/
theorem runAll_succ_done {α : Type} {today : Date} {svc : Body → Option (List α)}
    {maxE : Option Nat} {rl : Nat} {s : GscState α} {D : List α} {C : List Body}
    (h : allStep today svc maxE rl s = StepRes.done D C) (fuel : Nat) :
    runAll today svc maxE rl (fuel + 1) s = some (Except.ok (D, C)) := by
  conv_lhs => rw [runAll]
  rw [h]

/-- Unfolding lemma: `runAll` reports the error of a failing step. -/
theorem runAll_succ_err {α : Type} {today : Date} {svc : Body → Option (List α)}
    {maxE : Option Nat} {rl : Nat} {s : GscState α} {e : LoopErr}
    (h : allStep today svc maxE rl s = StepRes.err e) (fuel : Nat) :
    runAll today svc maxE rl (fuel + 1) s = some (Except.error e) := by
  conv_lhs => rw [runAll]
  rw [h]

/-- Unfolding lemma for a completed iteration of `statesAt`. -/
theorem statesAt_succ {α : Type} {today : Date} {svc : Body → Option (List α)}
    {maxE : Option Nat} {rl n : Nat} {s s2 : GscState α} :
    statesAt today svc maxE rl (n + 1) s = some s2 ↔
      ∃ s1, allStep today svc maxE rl s = StepRes.next s1 ∧
        statesAt today svc maxE rl n s1 = some s2 := by
  conv_lhs => rw [statesAt]
  cases h : allStep today svc maxE rl s <;> simp [h]

/-- Running for `n + k` steps first walks the `n` completed iterations. -/
theorem runAll_shift {α : Type} {today : Date} {svc : Body → Option (List α)}
    {maxE : Option Nat} {rl : Nat} :
    ∀ {n : Nat} {s s1 : GscState α}, statesAt today svc maxE rl n s = some s1 →
      ∀ k, runAll today svc maxE rl (n + k) s = runAll today svc maxE rl k s1 := by
  intro n
  induction n with
  | zero =>
    intro s s1 h k
    simp [statesAt] at h
    subst h
    rw [Nat.zero_add]
  | succ n ih =>
    intro s s1 h k
    obtain ⟨s', hstep, hrest⟩ := statesAt_succ.mp h
    have harith : n + 1 + k = (n + k) + 1 := by omega
    rw [harith, runAll_succ_next hstep]
    exact ih hrest k

/-- While iterations are still completing, the runner has not returned. -/
theorem runAll_none_below {α : Type} {today : Date} {svc : Body → Option (List α)}
    {maxE : Option Nat} {rl : Nat} :
    ∀ {n : Nat} {s s1 : GscState α}, statesAt today svc maxE rl n s = some s1 →
      ∀ k, k ≤ n → runAll today svc maxE rl k s = none := by
  intro n
  induction n with
  | zero =>
    intro s s1 _ k hk
    interval_cases k
    rfl
  | succ n ih =>
    intro s s1 h k hk
    obtain ⟨s', hstep, hrest⟩ := statesAt_succ.mp h
    match k with
    | 0 => rfl
    | k + 1 =>
      rw [runAll_succ_next hstep]
      exact ih hrest k (by omega)

/-- Appending one request to a trace appends that response's rows. -/
theorem joinPages_snoc {α : Type} (svc : Body → Option (List α)) (calls : List Body)
    (b : Body) : joinPages svc (calls ++ [b]) = joinPages svc calls ++ (svc b).getD [] := by
  simp [joinPages]

/-- Invariant propagation along completed iterations: the accumulator length
tracks the cursor, the accumulator is the concatenation of the pages
returned for the request trace, and each iteration issues one request. -/
theorem statesAt_invariant {α : Type} {today : Date} {svc : Body → Option (List α)}
    {maxE : Option Nat} {rl : Nat} :
    ∀ {n : Nat} {s s1 : GscState α}, statesAt today svc maxE rl n s = some s1 →
      s.data.length = s.sr → s.data = joinPages svc s.calls →
      s1.data.length = s1.sr ∧ s1.data = joinPages svc s1.calls ∧
        s1.calls.length = s.calls.length + n := by
  intro n
  induction n with
  | zero =>
    intro s s1 h h1 h2
    simp [statesAt] at h
    subst h
    exact ⟨h1, h2, rfl⟩
  | succ n ih =>
    intro s s1 h h1 h2
    obtain ⟨s', hstep, hrest⟩ := statesAt_succ.mp h
    obtain ⟨b, rows, hcond, hb, hsvc, hmax, hs'⟩ := allStep_next_shape hstep
    subst hs'
    have l1 : (s.data ++ rows).length = s.sr + rows.length := by
      simp [h1]
    have l2 : s.data ++ rows = joinPages svc (s.calls ++ [b]) := by
      rw [joinPages_snoc, hsvc, ← h2]
      rfl
    obtain ⟨g1, g2, g3⟩ := ih hrest l1 l2
    refine ⟨g1, g2, ?_⟩
    simp at g3
    omega

/-- If the runner terminates normally from a state whose accumulator is the
concatenation of the pages for its trace, the returned accumulator is the
concatenation of the pages for the returned trace. -/
theorem runAll_ok_join {α : Type} {today : Date} {svc : Body → Option (List α)}
    {maxE : Option Nat} {rl : Nat} :
    ∀ {fuel : Nat} {s : GscState α} {D : List α} {C : List Body},
      s.data = joinPages svc s.calls →
      runAll today svc maxE rl fuel s = some (Except.ok (D, C)) →
      D = joinPages svc C := by
  intro fuel
  induction fuel with
  | zero =>
    intro s D C _ h
    simp [runAll] at h
  | succ n ih =>
    intro s D C hinv h
    cases hstep : allStep today svc maxE rl s with
    | next s1 =>
      rw [runAll_succ_next hstep] at h
      obtain ⟨b, rows, _, _, hsvc, _, hs1⟩ := allStep_next_shape hstep
      refine ih ?_ h
      subst hs1
      rw [joinPages_snoc, hsvc, ← hinv]
      rfl
    | done D0 C0 =>
      rw [runAll_succ_done hstep] at h
      obtain ⟨hD, hC⟩ : D0 = D ∧ C0 = C := by
        simpa using h
      subst hD
      subst hC
      rcases allStep_done_shape hstep with ⟨_, hD, hC⟩ | ⟨b, rows, _, _, hsvc, _, hD, hC⟩
      · rw [hD, hC, hinv]
      · rw [hD, hC, joinPages_snoc, hsvc, ← hinv]
        rfl
    | err e =>
      rw [runAll_succ_err hstep] at h
      simp at h

/-! ## Claims -/

/-- C1: with page size (`row_limit`) 2 and no `max_export`, a service
returning pages of sizes 2, 2, 1 in succession makes the export loop issue
exactly 3 single-page requests (the trace has three bodies), return an
accumulator of exactly 5 rows equal to the concatenation of the pages, pass
`start_row` values 0, 2, 4 to the successive requests, and terminate after
the third response because the guard fails at `start_row = 5`, which is not
a multiple of 2. -/
theorem C1_export_loop_pages_2_2_1 :
    get_search_analytics_all today0 svc221 none 2 10 =
      some (Except.ok ([10, 11, 12, 13, 14],
        [pageBody 2 0, pageBody 2 2, pageBody 2 4])) ∧
    [pageBody 2 0, pageBody 2 2, pageBody 2 4].map Body.startRow = [0, 2, 4] ∧
    loopCond 5 2 = false := by
  refine ⟨by decide, by decide, by decide⟩

/-- C2 (amended): for every positive `max_export`, an iteration whose append
pushes `start_row` above `max_export` terminates the loop at once, returning
the accumulator extended by exactly that page; and concretely, with
`max_export = 3`, page size 2 and a service always returning full pages of
two rows, the loop issues exactly 2 requests and returns 4 rows. -/
theorem C2_max_export_stop :
    (∀ {α : Type} (today : Date) (svc : Body → Option (List α)) (m rl : Nat)
      (s : GscState α) (b : Body) (rows : List α), 0 < rl → 0 < m →
      loopCond s.sr rl = true →
      buildBody today qpDims s.sr rl none 30 = Except.ok b →
      svc b = some rows →
      s.sr + rows.length > m →
      allStep today svc (some m) rl s =
        StepRes.done (s.data ++ rows) (s.calls ++ [b])) ∧
    get_search_analytics_all today0 svcFull (some 3) 2 10 =
      some (Except.ok ([7, 7, 7, 7], [pageBody 2 0, pageBody 2 2])) := by
  constructor
  · intro α today svc m rl s b rows _ hm hcond hb hsvc hgt
    have hmx : maxReached (some m) (s.sr + rows.length) = true := by
      simp [maxReached, hgt]
      omega
    simp [allStep, hcond, hb, hsvc, hmx]
  · decide

/-- C2 witness: the one-step stop property applied at a concrete state with
`max_export = 3`, page size 2, cursor 2 and a full page of two rows. -/
theorem C2_max_export_stop_witness :
    allStep today0 svcFull (some 3) 2 (⟨2, [7, 7], [pageBody 2 0]⟩ : GscState Nat) =
      StepRes.done [7, 7, 7, 7] [pageBody 2 0, pageBody 2 2] :=
  C2_max_export_stop.1 today0 svcFull 3 2 ⟨2, [7, 7], [pageBody 2 0]⟩
    (pageBody 2 2) [7, 7] (by decide) (by decide) (by decide) (by decide)
    (by decide) (by decide)

/-- C2 counterexample: the claim quantifies over every specified
`max_export`, but `max_export = 0` is falsy in Python, so the break never
fires: after the first full page the cursor is 2, which exceeds 0, yet the
iteration continues instead of stopping, and ten further iterations still
have not terminated the loop, although the claim requires it to stop after
one request. -/
theorem C2_counterexample_max_export_zero :
    allStep today0 svcFull (some 0) 2 (initState : GscState Nat) =
      StepRes.next ⟨2, [7, 7], [pageBody 2 0]⟩ ∧
    get_search_analytics_all today0 svcFull (some 0) 2 10 = none := by
  refine ⟨by decide, by decide⟩

/-- C3: whenever the export loop terminates normally, the returned
accumulator is exactly the concatenation, in service-return order, of the
rows lists of the responses to the issued request trace (so no row is
dropped, reordered or deduplicated); and at every continuation check (after
each completed iteration) the accumulator length equals the current
`start_row`, with one request issued per completed iteration. -/
theorem C3_accumulator_is_concatenation {α : Type} (today : Date)
    (svc : Body → Option (List α)) (maxE : Option Nat) (rl : Nat) (hrl : 0 < rl) :
    (∀ (n : Nat) (s : GscState α),
      statesAt today svc maxE rl n initState = some s →
      s.data.length = s.sr ∧ s.data = joinPages svc s.calls ∧ s.calls.length = n) ∧
    (∀ (fuel : Nat) (D : List α) (C : List Body),
      get_search_analytics_all today svc maxE rl fuel = some (Except.ok (D, C)) →
      D = joinPages svc C) := by
  constructor
  · intro n s h
    simpa [initState] using statesAt_invariant h rfl rfl
  · intro fuel D C h
    exact runAll_ok_join rfl h

/-- C3 witness: the concatenation law read off a terminated concrete run of
the loop (the 2, 2, 1 page scenario with page size 2). -/
theorem C3_accumulator_is_concatenation_witness :
    ([10, 11, 12, 13, 14] : List Nat) =
      joinPages svc221 [pageBody 2 0, pageBody 2 2, pageBody 2 4] :=
  (C3_accumulator_is_concatenation today0 svc221 none 2 (by decide)).2 10
    [10, 11, 12, 13, 14] [pageBody 2 0, pageBody 2 2, pageBody 2 4] (by decide)

/-- C8: if the response to the request of some reachable iteration lacks the
`rows` field entirely, the loop fails: for every sufficient fuel the run
reports the unhandled `missingRows` error, a value that carries none of the
rows accumulated before the failure, so they are not returned or otherwise
exposed. -/
theorem C8_missing_rows_fatal {α : Type} (today : Date)
    (svc : Body → Option (List α)) (maxE : Option Nat) (rl : Nat) (hrl : 0 < rl)
    (n : Nat) (s : GscState α) (b : Body)
    (hreach : statesAt today svc maxE rl n initState = some s)
    (hcond : loopCond s.sr rl = true)
    (hb : buildBody today qpDims s.sr rl none 30 = Except.ok b)
    (hmiss : svc b = none) :
    ∀ fuel, n < fuel →
      get_search_analytics_all today svc maxE rl fuel =
        some (Except.error LoopErr.missingRows) := by
  intro fuel hfuel
  have hstep : allStep today svc maxE rl s = StepRes.err LoopErr.missingRows := by
    simp [allStep, hcond, hb, hmiss]
  have harith : n + (fuel - n) = fuel := by omega
  obtain ⟨k, hk⟩ : ∃ k, fuel - n = k + 1 := ⟨fuel - n - 1, by omega⟩
  unfold get_search_analytics_all
  rw [← harith, runAll_shift hreach, hk, runAll_succ_err hstep]

/-- C8 witness: a service whose very first response lacks the `rows` field
makes the loop fail immediately with the unhandled error. -/
theorem C8_missing_rows_fatal_witness :
    get_search_analytics_all today0 svcNoRows none 2 1 =
      some (Except.error LoopErr.missingRows) :=
  C8_missing_rows_fatal today0 svcNoRows none 2 (by decide) 0 initState
    (pageBody 2 0) (by decide) (by decide) (by decide) (by decide) 1 (by decide)

/-- Divergence kernel for C9: from any state whose cursor satisfies the
guard, whose request the service answers with an empty rows list, and for
which the `max_export` break does not fire, the runner never returns, for
any amount of fuel, because the empty page leaves the cursor unchanged. -/
theorem runAll_empty_page_none {α : Type} {today : Date}
    {svc : Body → Option (List α)} {maxE : Option Nat} {rl sr0 : Nat} {b : Body}
    (hcond : loopCond sr0 rl = true)
    (hmax : maxReached maxE sr0 = false)
    (hb : buildBody today qpDims sr0 rl none 30 = Except.ok b)
    (hempty : svc b = some []) :
    ∀ (fuel : Nat) (s : GscState α), s.sr = sr0 →
      runAll today svc maxE rl fuel s = none := by
  intro fuel
  induction fuel with
  | zero => intro s _; rfl
  | succ n ih =>
    intro s hsr
    subst hsr
    have hstep : allStep today svc maxE rl s =
        StepRes.next ⟨s.sr, s.data, s.calls ++ [b]⟩ := by
      simp [allStep, hcond, hb, hempty, hmax]
    rw [runAll_succ_next hstep]
    exact ih _ rfl

/-- C9: if at some reachable continuation check the guard holds (the cursor
is 0 or a multiple of the page size), the `max_export` cap has not been
exceeded, and the service answers that iteration's request (and every
repetition of it) with a present-but-empty rows list, the export loop never
terminates: for every fuel bound the run is still going. -/
theorem C9_empty_page_divergence {α : Type} (today : Date)
    (svc : Body → Option (List α)) (maxE : Option Nat) (rl : Nat) (hrl : 0 < rl)
    (n : Nat) (s : GscState α) (b : Body)
    (hreach : statesAt today svc maxE rl n initState = some s)
    (hcond : loopCond s.sr rl = true)
    (hmax : maxReached maxE s.sr = false)
    (hb : buildBody today qpDims s.sr rl none 30 = Except.ok b)
    (hempty : svc b = some []) :
    ∀ fuel, get_search_analytics_all today svc maxE rl fuel = none := by
  intro fuel
  unfold get_search_analytics_all
  rcases Nat.le_total fuel n with hle | hle
  · exact runAll_none_below hreach fuel hle
  · have harith : n + (fuel - n) = fuel := by omega
    rw [← harith, runAll_shift hreach]
    exact runAll_empty_page_none hcond hmax hb hempty (fuel - n) s rfl

/-- C9 witness: a service that always returns an empty rows list keeps the
loop running past any concrete fuel bound, here 25 iterations with no
`max_export` and page size 2. -/
theorem C9_empty_page_divergence_witness :
    get_search_analytics_all today0 svcEmpty none 2 25 = none :=
  C9_empty_page_divergence today0 svcEmpty none 2 (by decide) 0 initState
    (pageBody 2 0) (by decide) (by decide) (by decide) (by decide)
    (by decide) 25

/-- C5: with explicit end date 2024-01-31 and duration 10 the request window
is 2024-01-21 to 2024-01-31; and in general, for every end-date string the
parser accepts and every duration whose subtraction stays inside the
calendar, the built body carries `startDate` equal to the serialization of
the end date moved back `duration` days (the ordinal subtraction by which
`timedelta` subtraction is computed) and `endDate` equal to the
serialization of the parsed end date, both as zero-padded `YYYY-MM-DD`. -/
theorem C5_query_window :
    buildBody today0 qpDims 0 25000 (some ("2024-01-31")) 10 =
      Except.ok
        { startDate := "2024-01-21"
          endDate := "2024-01-31"
          dimensions := qpDims
          rowLimit := 25000
          dataState := finalState
          startRow := 0 } ∧
    (∀ (today : Date) (dims : List String) (sr rl : Nat) (s : String) (d : Date)
      (dur : Nat), parseDate s = some d → dur + 1 ≤ toOrd d →
      buildBody today dims sr rl (some s) dur =
        Except.ok
          { startDate := fmtDate (fromOrd (toOrd d - dur))
            endDate := fmtDate d
            dimensions := dims
            rowLimit := rl
            dataState := finalState
            startRow := sr }) := by
  constructor
  · decide
  · intro today dims sr rl s d dur hp hdur
    have hne : ¬ s = "" := by
      intro he
      rw [he] at hp
      rw [show parseDate "" = none from by decide] at hp
      cases hp
    simp [buildBody, hne, hp, subDaysO, hdur]

/-- C5 witness: the general window law applied at the concrete end date
2024-01-31 with duration 10 (and a different cursor and page size). -/
theorem C5_query_window_witness :
    buildBody today0 qpDims 3 100 (some ("2024-01-31")) 10 =
      Except.ok
        { startDate := fmtDate (fromOrd (toOrd ⟨2024, 1, 31⟩ - 10))
          endDate := fmtDate ⟨2024, 1, 31⟩
          dimensions := qpDims
          rowLimit := 100
          dataState := finalState
          startRow := 3 } :=
  C5_query_window.2 today0 qpDims 3 100 ("2024-01-31") ⟨2024, 1, 31⟩ 10
    (by decide) (by decide)

/-- C6 (amended): for every supplied end-date string that is nonempty and
that `strptime('%Y-%m-%d')` rejects, the builder fails immediately with
`InvalidDateFormat` and no remote request is issued. -/
theorem C6_invalid_date_rejected (today : Date) (dims : List String)
    (sr rl dur : Nat) (s : String) (hne : s ≠ "") (hbad : parseDate s = none) :
    buildBody today dims sr rl (some s) dur = Except.error ApiError.invalidDateFormat ∧
    gsaRequests today dims sr rl (some s) dur = [] := by
  have h1 : buildBody today dims sr rl (some s) dur =
      Except.error ApiError.invalidDateFormat := by
    simp [buildBody, hne, hbad]
  exact ⟨h1, by simp [gsaRequests, h1]⟩

/-- C6 witness: the string 2024-13-01 does not parse as a date, so the
builder rejects it and sends nothing. -/
theorem C6_invalid_date_rejected_witness :
    buildBody today0 qpDims 0 25000 (some ("2024-13-01")) 30 =
      Except.error ApiError.invalidDateFormat ∧
    gsaRequests today0 qpDims 0 25000 (some ("2024-13-01")) 30 = [] :=
  C6_invalid_date_rejected today0 qpDims 0 25000 30 ("2024-13-01")
    (by decide) (by decide)

/-- C6 counterexample: the empty string is a supplied end-date string that
does not match `YYYY-MM-DD`, yet the builder does not fail: Python's
falsiness test `if not end_date` treats it like an omitted date, the default
window is used, and a request is issued. -/
theorem C6_counterexample_empty_string :
    parseDate "" = none ∧
    buildBody today0 qpDims 0 25000 (some ("")) 30 = Except.ok (pageBody 25000 0) ∧
    gsaRequests today0 qpDims 0 25000 (some ("")) 30 = [pageBody 25000 0] := by
  refine ⟨by decide, by decide, by decide⟩

/-- C10: an empty-string end date behaves exactly like an omitted one: the
builder takes the same branch as with no end date, does not fail, defaults
the window to end at the current date (serialized into `endDate`), and the
request is issued. -/
theorem C10_empty_end_date_defaults (today : Date) (dims : List String)
    (sr rl dur : Nat) :
    buildBody today dims sr rl (some ("")) dur = buildBody today dims sr rl none dur ∧
    (dur + 1 ≤ toOrd today →
      buildBody today dims sr rl (some ("")) dur =
        Except.ok
          { startDate := fmtDate (fromOrd (toOrd today - dur))
            endDate := fmtDate today
            dimensions := dims
            rowLimit := rl
            dataState := finalState
            startRow := sr } ∧
      gsaRequests today dims sr rl (some ("")) dur =
        [{ startDate := fmtDate (fromOrd (toOrd today - dur))
           endDate := fmtDate today
           dimensions := dims
           rowLimit := rl
           dataState := finalState
           startRow := sr }]) := by
  refine ⟨rfl, fun hdur => ?_⟩
  have h1 : buildBody today dims sr rl (some ("")) dur =
      Except.ok
        { startDate := fmtDate (fromOrd (toOrd today - dur))
          endDate := fmtDate today
          dimensions := dims
          rowLimit := rl
          dataState := finalState
          startRow := sr } := by
    simp [buildBody, subDaysO, hdur]
  exact ⟨h1, by simp [gsaRequests, h1]⟩

/-- C10 witness: from the fixed clock 2024-06-15 with the default duration
30, the empty-string end date yields the default 30-day window and one
request. -/
theorem C10_empty_end_date_defaults_witness :
    buildBody today0 qpDims 0 25000 (some ("")) 30 =
      Except.ok
        { startDate := fmtDate (fromOrd (toOrd today0 - 30))
          endDate := fmtDate today0
          dimensions := qpDims
          rowLimit := 25000
          dataState := finalState
          startRow := 0 } ∧
    gsaRequests today0 qpDims 0 25000 (some ("")) 30 =
      [{ startDate := fmtDate (fromOrd (toOrd today0 - 30))
         endDate := fmtDate today0
         dimensions := qpDims
         rowLimit := 25000
         dataState := finalState
         startRow := 0 }] :=
  (C10_empty_end_date_defaults today0 qpDims 0 25000 30).2 (by decide)

/-- Unfolding lemma: the scan of the empty string. -/
theorem reSubHttp_nil : reSubHttp [] = [] := by simp [reSubHttp]

/-- Scan step replacing a leading `https://` occurrence. -/
theorem reSubHttp_https (t : List Char) :
    reSubHttp (httpsPat ++ t) = scDomain ++ reSubHttp t := by
  conv_lhs => simp only [httpsPat, List.cons_append, List.nil_append]
  rw [reSubHttp]
  simp [httpsPat, List.isPrefixOf]

/-- Scan step replacing a leading `http://` occurrence (the greedy `https://`
alternative cannot match there). -/
theorem reSubHttp_http (t : List Char) :
    reSubHttp (httpPat ++ t) = scDomain ++ reSubHttp t := by
  conv_lhs => simp only [httpPat, List.cons_append, List.nil_append]
  rw [reSubHttp]
  simp [httpsPat, httpPat, List.isPrefixOf]

/-- Scan step copying a character at which neither alternative matches. -/
theorem reSubHttp_cons (c : Char) (cs : List Char)
    (h1 : httpsPat.isPrefixOf (c :: cs) = false)
    (h2 : httpPat.isPrefixOf (c :: cs) = false) :
    reSubHttp (c :: cs) = c :: reSubHttp cs := by
  rw [reSubHttp]
  simp [h1, h2]

/-- A character list in which neither pattern occurs anywhere is scanned
unchanged. -/
theorem reSubHttp_id (l : List Char) (h : hasOcc l = false) : reSubHttp l = l := by
  induction l with
  | nil => exact reSubHttp_nil
  | cons c cs ih =>
    rw [hasOcc] at h
    simp only [Bool.or_eq_false_iff] at h
    rw [reSubHttp_cons c cs h.1.1 h.1.2, ih h.2]

/-- C4 (amended): `re.sub` performs a global substitution, not only at the
start of the string: every left-to-right, non-overlapping occurrence of
`https://` or `http://` is replaced by `sc-domain:`; an input containing no
occurrence at all is returned unchanged; and an input starting with a
prefix whose remainder contains no further occurrence becomes `sc-domain:`
followed by that remainder. -/
theorem C4_resub_replaces_all_occurrences :
    (∀ t : List Char, reSubHttp (httpsPat ++ t) = scDomain ++ reSubHttp t) ∧
    (∀ t : List Char, reSubHttp (httpPat ++ t) = scDomain ++ reSubHttp t) ∧
    (∀ s : String, hasOcc s.data = false → _format_domain s = s) ∧
    (∀ t : List Char, hasOcc t = false →
      reSubHttp (httpsPat ++ t) = scDomain ++ t ∧
      reSubHttp (httpPat ++ t) = scDomain ++ t) := by
  refine ⟨reSubHttp_https, reSubHttp_http, ?_, ?_⟩
  · intro s h
    unfold _format_domain
    rw [reSubHttp_id s.data h]
  · intro t h
    rw [reSubHttp_https, reSubHttp_http, reSubHttp_id t h]
    exact ⟨rfl, rfl⟩

/-- C4 witness: an identifier with no occurrence is left unchanged, and a
domain-only remainder after a leading `http://` is rewritten to the
`sc-domain:` form. -/
theorem C4_resub_replaces_all_occurrences_witness :
    _format_domain ("example.com") = "example.com" ∧
    reSubHttp (httpPat ++ ("example.com").data) = scDomain ++ ("example.com").data :=
  ⟨C4_resub_replaces_all_occurrences.2.2.1 ("example.com") (by decide),
   (C4_resub_replaces_all_occurrences.2.2.2 (("example.com").data) (by decide)).2⟩

/-- C4 counterexample: the claim asserts that inputs without a leading
`http://` or `https://` are returned exactly, and that inputs with a leading
prefix map to `sc-domain:` plus the remainder; the code instead substitutes
globally.  The input `xhttp://y` has no leading prefix yet is modified, and
the input `http://http://a` starts with the prefix yet does not map to
`sc-domain:` plus its remainder `http://a`, because the inner occurrence is
replaced too. -/
theorem C4_counterexample_inner_occurrence :
    httpPat.isPrefixOf (("xhttp://y").data) = false ∧
    httpsPat.isPrefixOf (("xhttp://y").data) = false ∧
    _format_domain ("xhttp://y") ≠ "xhttp://y" ∧
    httpPat.isPrefixOf (("http://http://a").data) = true ∧
    _format_domain ("http://http://a") ≠ String.mk (scDomain ++ ("http://a").data) := by
  have h1 : _format_domain ("xhttp://y") = "xsc-domain:y" := by
    simp [_format_domain, reSubHttp, httpsPat, httpPat, scDomain, List.isPrefixOf]
  have h2 : _format_domain ("http://http://a") = "sc-domain:sc-domain:a" := by
    simp [_format_domain, reSubHttp, httpsPat, httpPat, scDomain, List.isPrefixOf]
  refine ⟨by decide, by decide, ?_, by decide, ?_⟩
  · rw [h1]; decide
  · rw [h2]; decide

/-- Unfolding lemma for the expanded-frame width. -/
theorem maxKeyLen_cons (r : List String) (rest : List (List String)) :
    maxKeyLen (r :: rest) = max r.length (maxKeyLen rest) := rfl

/-- When every record's keys tuple has length `L` and there is at least one
record, the expanded frame has width `L`. -/
theorem maxKeyLen_const (L : Nat) :
    ∀ data : List (List String), data ≠ [] → (∀ r ∈ data, r.length = L) →
      maxKeyLen data = L := by
  intro data
  induction data with
  | nil => intro h; exact absurd rfl h
  | cons r rest ih =>
    intro _ hall
    have h1 : r.length = L := hall r (by simp)
    cases rest with
    | nil => simp [maxKeyLen_cons, maxKeyLen, h1]
    | cons r2 rest2 =>
      have h2 : maxKeyLen (r2 :: rest2) = L :=
        ih (by simp) (fun x hx => hall x (by simp [hx]))
      rw [maxKeyLen_cons, h1, h2, Nat.max_self]

/-- C7 (amended): the reshaper rejects with the length-mismatch `ValueError`
exactly when, for nonempty data, the number of dimension names differs from
the width of the expanded key frame, which is the maximum key-tuple length
over the records; records shorter than that width are padded with missing
values rather than rejected, so a record whose key tuple is shorter than the
dimension list does not by itself cause a failure.  Empty data fails with a
`KeyError` instead.  When every record's key-tuple length equals the number
of dimensions, each key tuple is expanded positionally into one column per
dimension name, in order, and the combined `keys` column is never part of
the output. -/
theorem C7_reshaper_behavior (data : List (List String)) (dims : List String) :
    (convert_to_df [] dims = Except.error PdError.keyError) ∧
    (data ≠ [] →
      (convert_to_df data dims = Except.error PdError.valueError ↔
        dims.length ≠ maxKeyLen data)) ∧
    (data ≠ [] → (∀ r ∈ data, r.length = dims.length) →
      convert_to_df data dims =
        Except.ok
          (((dims.enum).map
              (fun p => (p.snd, data.map (fun r => r.get? p.fst)))).filter
            (fun p => p.fst != keysStr))) ∧
    (∀ T, convert_to_df data dims = Except.ok T → ∀ c ∈ T, c.fst ≠ keysStr) := by
  refine ⟨by simp [convert_to_df], ?_, ?_, ?_⟩
  · intro hne
    by_cases hlen : dims.length = maxKeyLen data
    · simp [convert_to_df, hne, hlen]
    · simp [convert_to_df, hne, hlen]
  · intro hne hall
    have hm : maxKeyLen data = dims.length := maxKeyLen_const dims.length data hne hall
    simp [convert_to_df, hne, hm]
  · intro T h c hc
    unfold convert_to_df at h
    split at h
    · cases h
    · split at h
      · cases h
      · cases h
        have := List.of_mem_filter hc
        simpa using this

/-- C7 witness: a well-shaped record is expanded into one column per
dimension name, in order, with no combined `keys` column. -/
theorem C7_reshaper_behavior_witness :
    convert_to_df [["shoes", "/shoes"]] qpDims =
      Except.ok [("query", [some ("shoes")]), ("page", [some ("/shoes")])] :=
  ((C7_reshaper_behavior [["shoes", "/shoes"]] qpDims).2.2.1 (by decide)
    (by decide)).trans (by decide)

/-- C7 counterexample: with dimensions `query`, `page` and records whose key
tuples have lengths 2 and 1, some record's key-tuple length differs from the
dimension count, yet the reshaper does not fail: the short record is padded
with a missing value in the `page` column and the call succeeds, where the
claim requires a `ShapeMismatch` failure whenever some record mismatches. -/
theorem C7_counterexample_short_tuple_padded :
    (List.length ["a"] ≠ qpDims.length) ∧
    (["a"] ∈ [["a", "b"], ["a"]]) ∧
    convert_to_df [["a", "b"], ["a"]] qpDims =
      Except.ok [("query", [some ("a"), some ("a")]), ("page", [some ("b"), none])] := by
  refine ⟨by decide, by decide, by decide⟩

/-! ## Sanity checks of the calendar embedding -/

/-- The parser accepts a padded date and, like `strptime`, also an unpadded
month or day, while rejecting out-of-range dates and the empty string. -/
theorem parseDate_sanity :
    parseDate ("2024-01-31") = some ⟨2024, 1, 31⟩ ∧
    parseDate ("2024-1-31") = some ⟨2024, 1, 31⟩ ∧
    parseDate ("2024-02-30") = none ∧
    parseDate ("2024-01-31x") = none ∧
    parseDate ("") = none := by
  refine ⟨by decide, by decide, by decide, by decide, by decide⟩

/-- The ordinal maps agree on leap and non-leap boundaries and at the start
of the calendar, and the serializer zero-pads. -/
theorem calendar_sanity :
    fromOrd (toOrd ⟨2024, 3, 1⟩ - 1) = ⟨2024, 2, 29⟩ ∧
    fromOrd (toOrd ⟨2023, 3, 1⟩ - 1) = ⟨2023, 2, 28⟩ ∧
    fromOrd (toOrd ⟨1, 1, 1⟩) = ⟨1, 1, 1⟩ ∧
    fromOrd (toOrd ⟨1970, 12, 31⟩) = ⟨1970, 12, 31⟩ ∧
    fromOrd (toOrd ⟨2000, 2, 29⟩) = ⟨2000, 2, 29⟩ ∧
    fmtDate ⟨987, 4, 5⟩ = "0987-04-05" := by
  refine ⟨by decide, by decide, by decide, by decide, by decide, by decide⟩
